import Mathlib

/-!
Shallow embedding of the dFileSystem storage core
(`core_apps/storage/models.py`, `views.py`, `serializers.py`).

Database rows become Lean structures; each Django model method or view
action becomes a pure function on an explicit `StorageState`.  Byte
contents are not modelled: digests are carried as strings, exactly as
the code stores them.
-/

namespace DFS

/-- Chunk lifecycle status, from `Chunk.ChunkStatus` in `models.py`. -/
inductive ChunkStatus
  | uploading
  | completed
  | corrupted
  | deleted
deriving DecidableEq, Repr

/-- A `StorageNode` row (`models.py` lines 9-38).  `capacity` and
`available` are `BigIntegerField`s, modelled as `Int`. -/
structure StorageNode where
  id : Nat
  name : String
  capacity : Int
  available : Int
  is_active : Bool
deriving DecidableEq, Repr

/-- A `File` row (`models.py` lines 57-95).  `user` is nullable.  The
`auto_now` timestamp columns are omitted: every mutation below uses
`save(update_fields=...)`, which writes only the listed columns. -/
structure File where
  id : Nat
  name : String
  size : Int
  checksum : String
  content_type : String
  user : Option Nat
  deleted_at : Option Nat
  is_deleted : Bool
deriving DecidableEq, Repr

/-- A `Chunk` row (`models.py` lines 170-226).  `checksum` and
`stored_checksum` are nullable `CharField`s. -/
structure Chunk where
  id : Nat
  file_id : Nat
  storage_node_id : Nat
  object_key : String
  chunk_number : Nat
  size : Nat
  checksum : Option String
  is_primary : Bool
  status : ChunkStatus
  stored_checksum : Option String
  last_verified_at : Option Nat
deriving DecidableEq, Repr

/-- A `FileVersion` row (`models.py` lines 281-306). -/
structure FileVersion where
  id : Nat
  file_id : Nat
  version_number : Nat
  size : Int
  checksum : String
  created_by : Option Nat
  notes : String
deriving DecidableEq, Repr

/-- The metadata store: the four tables of the storage app. -/
structure StorageState where
  nodes : List StorageNode
  files : List File
  chunks : List Chunk
  versions : List FileVersion
deriving DecidableEq, Repr

/-- `StorageNode.update_storage_metrics` (`models.py` lines 34-38):
`available = max(0, capacity - used_space)` and
`is_active = available > 0`. -/
def update_storage_metrics (n : StorageNode) (used_space : Int) : StorageNode :=
  let avail := max 0 (n.capacity - used_space)
  { n with available := avail, is_active := decide (0 < avail) }

/-- `File.soft_delete` (`models.py` lines 104-108): set the flag and
the deletion timestamp, saving only those two columns. -/
def File.soft_delete (f : File) (now : Nat) : File :=
  { f with is_deleted := true, deleted_at := some now }

/-- `File.restore` (`models.py` lines 110-114): clear the flag and the
deletion timestamp, saving only those two columns. -/
def File.restore (f : File) : File :=
  { f with is_deleted := false, deleted_at := none }

/-- `File.is_available` (`models.py` lines 116-119):
`not self.is_deleted and self.chunks.exists()`. -/
def File.is_available (f : File) (chunks : List Chunk) : Bool :=
  !f.is_deleted && chunks.any (fun c => c.file_id == f.id)

/-- `Chunk.mark_as_primary` (`models.py` lines 241-253): inside one
transaction, every other row with the same `(file, chunk_number)` and
`is_primary=True` is demoted, then this row is promoted (the code skips
the final save when the row is already primary, which writes the same
value). -/
def mark_one (self c : Chunk) : Chunk :=
  if c.id == self.id then { c with is_primary := true }
  else if c.file_id == self.file_id && c.chunk_number == self.chunk_number
          && c.is_primary then
    { c with is_primary := false }
  else c

/-- The whole-table effect of `Chunk.mark_as_primary`: `mark_one`
applied to every row. -/
def mark_as_primary (self : Chunk) (chunks : List Chunk) : List Chunk :=
  chunks.map (mark_one self)

/-- `Chunk.verify_checksum` (`models.py` lines 255-261): compare the
recorded checksum with the calculated one; on mismatch set status to
`corrupted` (a `None` recorded checksum never equals a string, as in
Python). -/
def verify_checksum (self : Chunk) (calculated_checksum : String) : Bool × Chunk :=
  let is_valid := self.checksum == some calculated_checksum
  if is_valid then (true, self)
  else (false, { self with status := ChunkStatus.corrupted })

/-- Modelled from the spec: `ChunkViewSet._calculate_checksum`
(`views.py` lines 156-159) is a TODO stub, so the freshly computed
digest of the chunk's stored bytes (spec section 4.5) is taken here as
the parameter `calculated_checksum`.  The rest follows
`ChunkViewSet.verify` (`views.py` lines 144-154): record
`stored_checksum` and `last_verified_at` on the target row, then run
`verify_checksum`; no other row is written. -/
def ChunkViewSet_verify (self : Chunk) (calculated_checksum : String) (now : Nat)
    (chunks : List Chunk) : List Chunk :=
  chunks.map fun c =>
    if c.id == self.id then
      (verify_checksum
        { c with stored_checksum := some calculated_checksum,
                 last_verified_at := some now }
        calculated_checksum).2
    else c

/-- `Chunk.delete` (`models.py` lines 268-278): remove the row, then
recompute the owning node's metrics from the sizes of the chunks still
stored on that node. -/
def Chunk.delete (self : Chunk) (st : StorageState) : StorageState :=
  let chunks' := st.chunks.filter (fun c => c.id != self.id)
  let used_space : Int :=
    ((chunks'.filter (fun c => c.storage_node_id == self.storage_node_id)).map
      (fun c => (c.size : Int))).sum
  { st with
    chunks := chunks',
    nodes := st.nodes.map fun n =>
      if n.id == self.storage_node_id then update_storage_metrics n used_space
      else n }

/-- `FileVersion.restore` (`models.py` lines 315-320, reached through
`FileVersionViewSet.restore`, `views.py` lines 172-177): copy the
version's size and checksum onto the owning file, saving only those two
columns; no other table is touched. -/
def FileVersion.restore (v : FileVersion) (st : StorageState) : StorageState :=
  { st with files := st.files.map fun f =>
      if f.id == v.file_id then { f with size := v.size, checksum := v.checksum }
      else f }

/-- The versions of one file, as `file_obj.versions` resolves. -/
def versionsOf (st : StorageState) (fid : Nat) : List FileVersion :=
  st.versions.filter (fun v => v.file_id == fid)

/-- `FileViewSet.create_version` (`views.py` lines 116-131): the new
row's `version_number` is `file.versions.count() + 1`. -/
def create_version (st : StorageState) (f : File) (user : Nat) (new_id : Nat)
    (notes : String) : FileVersion × StorageState :=
  let v : FileVersion :=
    { id := new_id, file_id := f.id,
      version_number := (versionsOf st f.id).length + 1,
      size := f.size, checksum := f.checksum,
      created_by := some user, notes := notes }
  (v, { st with versions := st.versions ++ [v] })

/-- `FileUploadSerializer` (`serializers.py` lines 88-101): omitted
fields take their declared defaults (`replication_factor = 2`,
`chunk_size = 1024*1024`); `replication_factor` must lie in `[1, 3]`,
`chunk_size` must be at least `1024` and a multiple of `4096`.  Returns
the validated pair or `none` on a validation error. -/
def fileUploadValidate (replication_factor : Option Int) (chunk_size : Option Int) :
    Option (Int × Int) :=
  let rf := replication_factor.getD 2
  let cs := chunk_size.getD (1024 * 1024)
  if 1 ≤ rf ∧ rf ≤ 3 ∧ 1024 ≤ cs ∧ cs % 4096 = 0 then some (rf, cs) else none

/-- The fields of an upload request.  `file_checksum` is the SHA-256
digest the view computes over the uploaded bytes (`views.py` lines
71-75); `none` in an option field means the form field was omitted. -/
structure UploadInput where
  file_name : String
  file_size : Int
  file_content_type : String
  file_checksum : String
  replication_factor : Option Int
  chunk_size : Option Int
deriving DecidableEq, Repr

/-- Outcome of `FileViewSet.create`: 400 validation error, 409 conflict
carrying the existing file's id, or 201 created. -/
inductive CreateResult
  | invalid
  | conflict (existing_id : Nat)
  | created (file_id : Nat)
deriving DecidableEq, Repr

/-- `FileViewSet.create` (`views.py` lines 62-107), one atomic
transaction: validate the serializer first (an error raises before any
write); then look for an existing file of this user with the same
checksum (`File.objects.filter(checksum=..., user=...).first()`) and
answer 409 with its id; otherwise insert the new `File` row.  The TODO
block creates no chunk records. -/
def FileViewSet_create (st : StorageState) (user : Nat) (inp : UploadInput)
    (new_id : Nat) : CreateResult × StorageState :=
  match fileUploadValidate inp.replication_factor inp.chunk_size with
  | none => (CreateResult.invalid, st)
  | some _ =>
    match st.files.find? (fun f => f.checksum == inp.file_checksum
        && f.user == some user) with
    | some existing => (CreateResult.conflict existing.id, st)
    | none =>
      let f : File :=
        { id := new_id, name := inp.file_name, size := inp.file_size,
          checksum := inp.file_checksum, content_type := inp.file_content_type,
          user := some user, deleted_at := none, is_deleted := false }
      (CreateResult.created new_id, { st with files := st.files ++ [f] })

/-- The maximum ordinal among a file's chunk rows (0 when it has none). -/
def maxOrdinal (f : File) (chunks : List Chunk) : Nat :=
  ((chunks.filter (fun c => c.file_id == f.id)).map (fun c => c.chunk_number)).foldr
    max 0

/-- Availability as the spec words it: the file is not soft-deleted and
every ordinal from 0 to the file's maximum ordinal has at least one
`completed` chunk.  Written from the spec's sentence, to be compared
with `File.is_available` above, which is what the code computes. -/
def spec_is_available (f : File) (chunks : List Chunk) : Bool :=
  !f.is_deleted &&
    (List.range (maxOrdinal f chunks + 1)).all fun k =>
      chunks.any fun c =>
        c.file_id == f.id && c.chunk_number == k && c.status == ChunkStatus.completed

/-- `File.soft_delete` lifted to the store: only the addressed file row
is written. -/
def soft_delete_op (st : StorageState) (fid : Nat) (now : Nat) : StorageState :=
  { st with files := st.files.map fun f =>
      if f.id == fid then f.soft_delete now else f }

/-- `File.restore` lifted to the store: only the addressed file row is
written. -/
def restore_op (st : StorageState) (fid : Nat) : StorageState :=
  { st with files := st.files.map fun f =>
      if f.id == fid then f.restore else f }

/-! ## Concrete rows used by closed statements -/

/-- A live (non-deleted) file row. -/
def exFile : File :=
  { id := 1, name := "a.txt", size := 8, checksum := "h1", content_type := "",
    user := some 1, deleted_at := none, is_deleted := false }

/-- A chunk row of `exFile` at ordinal 0 still in `uploading` state. -/
def exUploadingChunk : Chunk :=
  { id := 1, file_id := 1, storage_node_id := 1, object_key := "k0",
    chunk_number := 0, size := 8, checksum := some "c0", is_primary := false,
    status := ChunkStatus.uploading, stored_checksum := none,
    last_verified_at := none }

/-! ## C4: availability -/

/-- C4 counterexample: a non-deleted file whose only chunk row is still
`uploading` (so ordinal 0 has no `completed` chunk) nevertheless has
`is_available = true`, because the code only tests `chunks.exists()`;
the claim says such a file is not available. -/
theorem C4_counterexample :
    File.is_available exFile [exUploadingChunk] = true ∧
    spec_is_available exFile [exUploadingChunk] = false := by
  constructor <;> rfl

/-- C4 (amended): `is_available` is true iff the file is not
soft-deleted and at least one chunk row (of any status, at any ordinal)
references it; completed-per-ordinal coverage is not checked. -/
theorem C4_is_available_amended (f : File) (chunks : List Chunk) :
    File.is_available f chunks = true ↔
      f.is_deleted = false ∧ ∃ c ∈ chunks, c.file_id = f.id := by
  simp [File.is_available, List.any_eq_true, Bool.not_eq_true']

/-! ## C10: soft delete / restore -/

/-- C10: `soft_delete` writes only `is_deleted` and `deleted_at` (set to
the deletion time), `restore` writes only `is_deleted := false` and
`deleted_at := None`; neither touches the file's name, size, checksum,
nor any chunk row (nor versions or nodes), and restore after
soft_delete returns a store whose files were all non-deleted to exactly
its previous state. -/
theorem C10_soft_delete_restore (st : StorageState) (fid now : Nat) (f : File)
    (hpre : ∀ g ∈ st.files, g.id = fid → g.is_deleted = false ∧ g.deleted_at = none) :
    restore_op (soft_delete_op st fid now) fid = st ∧
    ((f.soft_delete now).is_deleted = true ∧
      (f.soft_delete now).deleted_at = some now ∧
      (f.soft_delete now).name = f.name ∧
      (f.soft_delete now).size = f.size ∧
      (f.soft_delete now).checksum = f.checksum ∧
      (f.soft_delete now).id = f.id ∧
      (f.soft_delete now).user = f.user ∧
      (f.soft_delete now).content_type = f.content_type) ∧
    (f.restore.is_deleted = false ∧
      f.restore.deleted_at = none ∧
      f.restore.name = f.name ∧
      f.restore.size = f.size ∧
      f.restore.checksum = f.checksum ∧
      f.restore.id = f.id ∧
      f.restore.user = f.user ∧
      f.restore.content_type = f.content_type) ∧
    (f.is_deleted = false → f.deleted_at = none → (f.soft_delete now).restore = f) ∧
    (soft_delete_op st fid now).chunks = st.chunks ∧
    (soft_delete_op st fid now).versions = st.versions ∧
    (soft_delete_op st fid now).nodes = st.nodes ∧
    (restore_op st fid).chunks = st.chunks ∧
    (restore_op st fid).versions = st.versions ∧
    (restore_op st fid).nodes = st.nodes := by
  refine ⟨?_, ⟨rfl, rfl, rfl, rfl, rfl, rfl, rfl, rfl⟩,
    ⟨rfl, rfl, rfl, rfl, rfl, rfl, rfl, rfl⟩, ?_, rfl, rfl, rfl, rfl, rfl, rfl⟩
  · cases st with
    | mk nodes files chunks versions =>
      simp only [restore_op, soft_delete_op, StorageState.mk.injEq, true_and,
        and_true] at hpre ⊢
      rw [List.map_map]
      refine (List.map_congr_left ?_).trans (List.map_id files)
      intro g hg
      by_cases h : g.id = fid
      · obtain ⟨h1, h2⟩ := hpre g hg h
        cases g
        simp_all [File.soft_delete, File.restore]
      · simp [Function.comp, h]
  · intro h1 h2
    cases f
    simp_all [File.soft_delete, File.restore]

/-- A small store used by closed witness statements. -/
def exState : StorageState :=
  { nodes := [], files := [exFile], chunks := [exUploadingChunk],
    versions := [{ id := 7, file_id := 1, version_number := 1, size := 4,
                   checksum := "hv", created_by := some 1, notes := "" }] }

/-- C10 witness at a concrete store. -/
theorem C10_witness :
    (∀ g ∈ exState.files, g.id = 1 → g.is_deleted = false ∧ g.deleted_at = none) ∧
    restore_op (soft_delete_op exState 1 5) 1 = exState :=
  ⟨by decide, (C10_soft_delete_restore exState 1 5 exFile (by decide)).1⟩

/-! ## C6: version restore -/

/-- C6: restoring a `FileVersion` writes exactly the version's recorded
size and checksum onto the owning file, leaves the file's other columns
and every other file unchanged, creates no version row, and touches no
chunk (or node or version) row. -/
theorem C6_version_restore (v : FileVersion) (st : StorageState) :
    (FileVersion.restore v st).versions = st.versions ∧
    (FileVersion.restore v st).chunks = st.chunks ∧
    (FileVersion.restore v st).nodes = st.nodes ∧
    (FileVersion.restore v st).files.length = st.files.length ∧
    ∀ i, (h1 : i < st.files.length) →
      (h2 : i < (FileVersion.restore v st).files.length) →
      ((st.files[i]).id ≠ v.file_id →
        (FileVersion.restore v st).files[i] = st.files[i]) ∧
      ((st.files[i]).id = v.file_id →
        ((FileVersion.restore v st).files[i]).size = v.size ∧
        ((FileVersion.restore v st).files[i]).checksum = v.checksum ∧
        ((FileVersion.restore v st).files[i]).id = (st.files[i]).id ∧
        ((FileVersion.restore v st).files[i]).name = (st.files[i]).name ∧
        ((FileVersion.restore v st).files[i]).content_type =
          (st.files[i]).content_type ∧
        ((FileVersion.restore v st).files[i]).user = (st.files[i]).user ∧
        ((FileVersion.restore v st).files[i]).deleted_at =
          (st.files[i]).deleted_at ∧
        ((FileVersion.restore v st).files[i]).is_deleted =
          (st.files[i]).is_deleted) := by
  refine ⟨rfl, rfl, rfl, by simp [FileVersion.restore], ?_⟩
  intro i h1 h2
  simp only [FileVersion.restore, List.getElem_map]
  constructor
  · intro hne
    simp [hne]
  · intro heq
    simp [heq]

/-- C6 witness at a concrete store: the stored version is restored onto
file 1. -/
theorem C6_witness :
    0 < exState.files.length ∧
    0 < (FileVersion.restore (exState.versions.get ⟨0, by decide⟩) exState).files.length ∧
    ((FileVersion.restore (exState.versions.get ⟨0, by decide⟩) exState).files.get
      ⟨0, by decide⟩).checksum = "hv" := by
  refine ⟨by decide, by decide, ?_⟩
  have h := (C6_version_restore (exState.versions.get ⟨0, by decide⟩) exState).2.2.2.2
    0 (by decide) (by decide)
  exact (h.2 (by decide)).2.1

/-! ## C1: chunk verification -/

/-- C1: `verify` records the computed digest as `stored_checksum` and
updates `last_verified_at` on the target chunk; when the digest equals
the recorded checksum the status is unchanged, when it differs the
status becomes `corrupted`; every other row — in particular every
sibling replica of the same `(file, ordinal)` — is left untouched. -/
theorem C1_verify (self : Chunk) (calculated_checksum : String) (now : Nat)
    (chunks : List Chunk) :
    (ChunkViewSet_verify self calculated_checksum now chunks).length =
      chunks.length ∧
    ∀ i, (h1 : i < chunks.length) →
      (h2 : i < (ChunkViewSet_verify self calculated_checksum now chunks).length) →
      ((chunks[i]).id ≠ self.id →
        (ChunkViewSet_verify self calculated_checksum now chunks)[i] =
          chunks[i]) ∧
      ((chunks[i]).id = self.id →
        ((ChunkViewSet_verify self calculated_checksum now chunks)[i]).stored_checksum =
          some calculated_checksum ∧
        ((ChunkViewSet_verify self calculated_checksum now chunks)[i]).last_verified_at =
          some now ∧
        ((chunks[i]).checksum = some calculated_checksum →
          ((ChunkViewSet_verify self calculated_checksum now chunks)[i]).status =
            (chunks[i]).status) ∧
        ((chunks[i]).checksum ≠ some calculated_checksum →
          ((ChunkViewSet_verify self calculated_checksum now chunks)[i]).status =
            ChunkStatus.corrupted) ∧
        ((ChunkViewSet_verify self calculated_checksum now chunks)[i]).id =
          (chunks[i]).id ∧
        ((ChunkViewSet_verify self calculated_checksum now chunks)[i]).file_id =
          (chunks[i]).file_id ∧
        ((ChunkViewSet_verify self calculated_checksum now chunks)[i]).chunk_number =
          (chunks[i]).chunk_number ∧
        ((ChunkViewSet_verify self calculated_checksum now chunks)[i]).size =
          (chunks[i]).size ∧
        ((ChunkViewSet_verify self calculated_checksum now chunks)[i]).checksum =
          (chunks[i]).checksum ∧
        ((ChunkViewSet_verify self calculated_checksum now chunks)[i]).is_primary =
          (chunks[i]).is_primary ∧
        ((ChunkViewSet_verify self calculated_checksum now chunks)[i]).object_key =
          (chunks[i]).object_key) := by
  refine ⟨by simp [ChunkViewSet_verify], ?_⟩
  intro i h1 h2
  simp only [ChunkViewSet_verify, List.getElem_map]
  constructor
  · intro hne
    simp [hne]
  · intro heq
    by_cases hc : (chunks[i]).checksum = some calculated_checksum
    · simp [heq, verify_checksum, hc]
    · simp [heq, verify_checksum, hc]

/-- C1 witness: verifying the concrete uploading chunk with a digest
that differs from its recorded checksum marks it corrupted and records
the bookkeeping fields. -/
theorem C1_witness :
    0 < [exUploadingChunk].length ∧
    0 < (ChunkViewSet_verify exUploadingChunk "other" 9 [exUploadingChunk]).length ∧
    ((ChunkViewSet_verify exUploadingChunk "other" 9 [exUploadingChunk]).get
        ⟨0, by decide⟩).stored_checksum = some "other" ∧
    ((ChunkViewSet_verify exUploadingChunk "other" 9 [exUploadingChunk]).get
        ⟨0, by decide⟩).status = ChunkStatus.corrupted := by
  refine ⟨by decide, by decide, ?_, ?_⟩
  · exact ((C1_verify exUploadingChunk "other" 9 [exUploadingChunk]).2 0
      (by decide) (by decide)).2 (by decide) |>.1
  · exact (((C1_verify exUploadingChunk "other" 9 [exUploadingChunk]).2 0
      (by decide) (by decide)).2 (by decide)).2.2.2.1 (by decide)

/-! ## C2: single primary replica -/

/-- At most one primary replica per `(file, ordinal)`: two rows sharing
the key that are both primary have the same primary key. -/
def atMostOnePrimary (chunks : List Chunk) : Prop :=
  ∀ c ∈ chunks, ∀ d ∈ chunks,
    c.file_id = d.file_id → c.chunk_number = d.chunk_number →
    c.is_primary = true → d.is_primary = true → c.id = d.id

lemma mark_one_fields (self a : Chunk) :
    (mark_one self a).id = a.id ∧ (mark_one self a).file_id = a.file_id ∧
    (mark_one self a).chunk_number = a.chunk_number := by
  unfold mark_one
  split
  · exact ⟨rfl, rfl, rfl⟩
  · split
    · exact ⟨rfl, rfl, rfl⟩
    · exact ⟨rfl, rfl, rfl⟩

lemma mark_one_primary (self a : Chunk) :
    (mark_one self a).is_primary = true ↔
      (a.id = self.id ∨ (a.is_primary = true ∧
        ¬(a.file_id = self.file_id ∧ a.chunk_number = self.chunk_number))) := by
  unfold mark_one
  by_cases hid : a.id = self.id
  · simp [hid]
  · by_cases hf : a.file_id = self.file_id
    · by_cases hn : a.chunk_number = self.chunk_number
      · by_cases hp : a.is_primary = true
        · simp [hid, hf, hn, hp]
        · simp [hid, hf, hn, hp]
      · simp [hid, hn]
    · simp [hid, hf]

/-- C2: `mark_as_primary` preserves the at-most-one-primary invariant,
and afterwards a row sharing the caller's `(file, chunk_number)` is
primary exactly when it is the caller's row.  `hself` says the caller's
in-memory key agrees with its own row's key. -/
theorem C2_mark_as_primary (self : Chunk) (chunks : List Chunk)
    (hself : ∀ c ∈ chunks, c.id = self.id →
      c.file_id = self.file_id ∧ c.chunk_number = self.chunk_number)
    (hinv : atMostOnePrimary chunks) :
    (∀ c ∈ mark_as_primary self chunks,
      c.file_id = self.file_id → c.chunk_number = self.chunk_number →
      (c.is_primary = true ↔ c.id = self.id)) ∧
    atMostOnePrimary (mark_as_primary self chunks) := by
  constructor
  · intro c hc hf hn
    obtain ⟨a, ha, rfl⟩ := List.mem_map.1 hc
    obtain ⟨hidEq, hfEq, hnEq⟩ := mark_one_fields self a
    rw [mark_one_primary self a, hidEq]
    rw [hfEq] at hf
    rw [hnEq] at hn
    constructor
    · rintro (h | ⟨_, hkey⟩)
      · exact h
      · exact absurd ⟨hf, hn⟩ hkey
    · intro h
      exact Or.inl h
  · intro c hc d hd hfd hnd hcp hdp
    obtain ⟨a, ha, rfl⟩ := List.mem_map.1 hc
    obtain ⟨b, hb, rfl⟩ := List.mem_map.1 hd
    obtain ⟨haid, haf, han⟩ := mark_one_fields self a
    obtain ⟨hbid, hbf, hbn⟩ := mark_one_fields self b
    rw [haid, hbid]
    rw [haf, hbf] at hfd
    rw [han, hbn] at hnd
    rw [mark_one_primary] at hcp hdp
    rcases hcp with h1 | ⟨hap, hakey⟩
    · rcases hdp with h2 | ⟨_, hbkey⟩
      · rw [h1, h2]
      · obtain ⟨hsf, hsn⟩ := hself a ha h1
        exact absurd ⟨hfd ▸ hsf, hnd ▸ hsn⟩ hbkey
    · rcases hdp with h2 | ⟨hbp, _⟩
      · obtain ⟨hsf, hsn⟩ := hself b hb h2
        exact absurd ⟨hfd.symm ▸ hsf, hnd.symm ▸ hsn⟩ hakey
      · exact hinv a ha b hb hfd hnd hap hbp

/-- Two replica rows of the same `(file, ordinal)` on distinct nodes;
the second one is currently primary. -/
def exReplicaA : Chunk :=
  { id := 10, file_id := 1, storage_node_id := 1, object_key := "kA",
    chunk_number := 0, size := 8, checksum := some "c0", is_primary := false,
    status := ChunkStatus.completed, stored_checksum := none,
    last_verified_at := none }

/-- Sibling replica of `exReplicaA` on another node, currently primary. -/
def exReplicaB : Chunk :=
  { id := 11, file_id := 1, storage_node_id := 2, object_key := "kB",
    chunk_number := 0, size := 8, checksum := some "c0", is_primary := true,
    status := ChunkStatus.completed, stored_checksum := none,
    last_verified_at := none }

/-- C2 witness: promoting replica A demotes replica B. -/
theorem C2_witness :
    (∀ c ∈ [exReplicaA, exReplicaB], c.id = exReplicaA.id →
      c.file_id = exReplicaA.file_id ∧ c.chunk_number = exReplicaA.chunk_number) ∧
    atMostOnePrimary [exReplicaA, exReplicaB] ∧
    ∀ c ∈ mark_as_primary exReplicaA [exReplicaA, exReplicaB],
      c.file_id = exReplicaA.file_id → c.chunk_number = exReplicaA.chunk_number →
      (c.is_primary = true ↔ c.id = exReplicaA.id) := by
  refine ⟨by decide, ?_, ?_⟩
  · intro c hc d hd
    fin_cases hc <;> fin_cases hd <;> decide
  · exact (C2_mark_as_primary exReplicaA [exReplicaA, exReplicaB] (by decide)
      (by intro c hc d hd; fin_cases hc <;> fin_cases hd <;> decide)).1

/-! ## C3: duplicate uploads -/

/-- C3: when some file of this owner already has the same name,
checksum and owner, `create` leaves the store unchanged and does not
answer `created`; every `conflict` answer carries the id of an existing
row with the same checksum and owner; and a `created` answer implies no
(name, checksum, owner) match existed. -/
theorem C3_create_dedup (st : StorageState) (user : Nat) (inp : UploadInput)
    (new_id : Nat) :
    ((∃ f ∈ st.files, f.name = inp.file_name ∧ f.checksum = inp.file_checksum ∧
        f.user = some user) →
      (FileViewSet_create st user inp new_id).2 = st ∧
      ∀ fid, (FileViewSet_create st user inp new_id).1 ≠ CreateResult.created fid) ∧
    (∀ eid, (FileViewSet_create st user inp new_id).1 = CreateResult.conflict eid →
      (FileViewSet_create st user inp new_id).2 = st ∧
      ∃ g ∈ st.files, g.id = eid ∧ g.checksum = inp.file_checksum ∧
        g.user = some user) ∧
    (∀ fid, (FileViewSet_create st user inp new_id).1 = CreateResult.created fid →
      ¬∃ f ∈ st.files, f.name = inp.file_name ∧ f.checksum = inp.file_checksum ∧
        f.user = some user) := by
  cases hv : fileUploadValidate inp.replication_factor inp.chunk_size with
  | none =>
    refine ⟨fun _ => ⟨by simp [FileViewSet_create, hv], ?_⟩, ?_, ?_⟩
    · intro fid
      simp [FileViewSet_create, hv]
    · intro eid h
      simp [FileViewSet_create, hv] at h
    · intro fid h
      simp [FileViewSet_create, hv] at h
  | some v =>
    cases hf : st.files.find?
        (fun f => f.checksum == inp.file_checksum && f.user == some user) with
    | some existing =>
      have hex := List.find?_some hf
      have hmem := List.mem_of_find?_eq_some hf
      simp only [Bool.and_eq_true, beq_iff_eq] at hex
      refine ⟨fun _ => ⟨by simp [FileViewSet_create, hv, hf], ?_⟩, ?_, ?_⟩
      · intro fid
        simp [FileViewSet_create, hv, hf]
      · intro eid h
        simp only [FileViewSet_create, hv, hf, CreateResult.conflict.injEq] at h
        exact ⟨by simp [FileViewSet_create, hv, hf],
          existing, hmem, h ▸ rfl, hex.1, hex.2⟩
      · intro fid h
        simp [FileViewSet_create, hv, hf] at h
    | none =>
      have hnone := List.find?_eq_none.1 hf
      refine ⟨?_, ?_, ?_⟩
      · rintro ⟨f, hfmem, _, hcks, huser⟩
        have := hnone f hfmem
        simp [hcks, huser] at this
      · intro eid h
        simp [FileViewSet_create, hv, hf] at h
      · rintro fid h ⟨f, hfmem, _, hcks, huser⟩
        have := hnone f hfmem
        simp [hcks, huser] at this

/-- C3 witness: re-uploading `exFile`'s name and checksum as user 1
against the store that already holds `exFile` changes nothing and is
not answered `created`. -/
theorem C3_witness :
    (∃ f ∈ exState.files, f.name = "a.txt" ∧ f.checksum = "h1" ∧
      f.user = some 1) ∧
    (FileViewSet_create exState 1
      { file_name := "a.txt", file_size := 8, file_content_type := "",
        file_checksum := "h1", replication_factor := none,
        chunk_size := none } 99).2 = exState :=
  ⟨⟨exFile, by decide, rfl, rfl, rfl⟩,
    ((C3_create_dedup exState 1
      { file_name := "a.txt", file_size := 8, file_content_type := "",
        file_checksum := "h1", replication_factor := none,
        chunk_size := none } 99).1 ⟨exFile, by decide, rfl, rfl, rfl⟩).1⟩

/-! ## C8: chunk-size alignment -/

/-- C8: a request whose `chunk_size` is not a positive multiple of 4096
fails serializer validation, so `create` answers 400 and the store is
untouched — no `File` row, no `Chunk` row. -/
theorem C8_bad_chunk_size_rejected (st : StorageState) (user : Nat)
    (inp : UploadInput) (new_id : Nat) (cs : Int)
    (hcs : inp.chunk_size = some cs)
    (hbad : ¬(0 < cs ∧ cs % 4096 = 0)) :
    (FileViewSet_create st user inp new_id).1 = CreateResult.invalid ∧
    (FileViewSet_create st user inp new_id).2 = st := by
  have hv : fileUploadValidate inp.replication_factor inp.chunk_size = none := by
    unfold fileUploadValidate
    rw [hcs]
    simp only [Option.getD_some]
    rw [if_neg]
    rintro ⟨_, _, h3, h4⟩
    exact hbad ⟨lt_of_lt_of_le (by norm_num) h3, h4⟩
  simp [FileViewSet_create, hv]

/-- C8 witness: `chunk_size = 2048` (positive, but not a multiple of
4096) is rejected with the store unchanged. -/
theorem C8_witness :
    ({ file_name := "b.txt", file_size := 8, file_content_type := "",
       file_checksum := "h2", replication_factor := none,
       chunk_size := some 2048 } : UploadInput).chunk_size = some 2048 ∧
    ¬((0 : Int) < 2048 ∧ (2048 : Int) % 4096 = 0) ∧
    (FileViewSet_create exState 1
      { file_name := "b.txt", file_size := 8, file_content_type := "",
        file_checksum := "h2", replication_factor := none,
        chunk_size := some 2048 } 99).2 = exState :=
  ⟨rfl, by decide,
    (C8_bad_chunk_size_rejected exState 1
      { file_name := "b.txt", file_size := 8, file_content_type := "",
        file_checksum := "h2", replication_factor := none,
        chunk_size := some 2048 } 99 2048 rfl (by decide)).2⟩

/-! ## C9: replication factor bounds and defaults -/

/-- C9: a supplied `replication_factor` outside `[1, 3]` fails
validation before any `File` row is created; omitted fields resolve to
`replication_factor = 2` and `chunk_size = 1048576`. -/
theorem C9_replication_validation (st : StorageState) (user : Nat)
    (inp : UploadInput) (new_id : Nat) :
    (∀ rf, inp.replication_factor = some rf → ¬(1 ≤ rf ∧ rf ≤ 3) →
      (FileViewSet_create st user inp new_id).1 = CreateResult.invalid ∧
      (FileViewSet_create st user inp new_id).2 = st) ∧
    fileUploadValidate none none = some (2, 1048576) ∧
    (∀ p, fileUploadValidate inp.replication_factor inp.chunk_size = some p →
      (inp.replication_factor = none → p.1 = 2) ∧
      (inp.chunk_size = none → p.2 = 1048576)) := by
  refine ⟨?_, by decide, ?_⟩
  · intro rf hrf hout
    have hv : fileUploadValidate inp.replication_factor inp.chunk_size = none := by
      unfold fileUploadValidate
      rw [hrf]
      simp only [Option.getD_some]
      rw [if_neg]
      rintro ⟨h1, h2, _, _⟩
      exact hout ⟨h1, h2⟩
    simp [FileViewSet_create, hv]
  · intro p hp
    unfold fileUploadValidate at hp
    simp only [] at hp
    split at hp
    · cases hp
      constructor
      · intro h
        rw [h]
        rfl
      · intro h
        rw [h]
        norm_num
    · cases hp

/-- C9 witness: `replication_factor = 5` is rejected with the store
unchanged. -/
theorem C9_witness :
    ({ file_name := "c.txt", file_size := 8, file_content_type := "",
       file_checksum := "h3", replication_factor := some 5,
       chunk_size := none } : UploadInput).replication_factor = some 5 ∧
    ¬((1 : Int) ≤ 5 ∧ (5 : Int) ≤ 3) ∧
    (FileViewSet_create exState 1
      { file_name := "c.txt", file_size := 8, file_content_type := "",
        file_checksum := "h3", replication_factor := some 5,
        chunk_size := none } 99).2 = exState :=
  ⟨rfl, by decide,
    ((C9_replication_validation exState 1
      { file_name := "c.txt", file_size := 8, file_content_type := "",
        file_checksum := "h3", replication_factor := some 5,
        chunk_size := none } 99).1 5 rfl (by decide)).2⟩

/-! ## C5: capacity recomputation on chunk deletion -/

/-- C5: deleting a chunk removes exactly that row, and the owning
node's `available` is recomputed as `max 0 (capacity - sum of remaining
chunk sizes on that node)`; afterwards `0 ≤ available ≤ capacity` (for
a node registered with nonnegative capacity) and `is_active` holds
exactly when `available > 0`. -/
theorem C5_delete_recompute (self : Chunk) (st : StorageState) (i : Nat)
    (h1 : i < st.nodes.length)
    (hid : (st.nodes[i]).id = self.storage_node_id)
    (hcap : 0 ≤ (st.nodes[i]).capacity)
    (h2 : i < (Chunk.delete self st).nodes.length) :
    (Chunk.delete self st).chunks = st.chunks.filter (fun c => c.id != self.id) ∧
    ((Chunk.delete self st).nodes[i]).available =
      max 0 ((st.nodes[i]).capacity -
        (((st.chunks.filter (fun c => c.id != self.id)).filter
          (fun c => c.storage_node_id == self.storage_node_id)).map
          (fun c => (c.size : Int))).sum) ∧
    0 ≤ ((Chunk.delete self st).nodes[i]).available ∧
    ((Chunk.delete self st).nodes[i]).available ≤ (st.nodes[i]).capacity ∧
    (((Chunk.delete self st).nodes[i]).is_active = true ↔
      0 < ((Chunk.delete self st).nodes[i]).available) ∧
    ((Chunk.delete self st).nodes[i]).capacity = (st.nodes[i]).capacity := by
  have hused : (0 : Int) ≤
      (((st.chunks.filter (fun c => c.id != self.id)).filter
        (fun c => c.storage_node_id == self.storage_node_id)).map
        (fun c => (c.size : Int))).sum := by
    apply List.sum_nonneg
    intro x hx
    obtain ⟨c, _, rfl⟩ := List.mem_map.1 hx
    exact Int.natCast_nonneg c.size
  have hnode : (Chunk.delete self st).nodes[i] =
      update_storage_metrics (st.nodes[i])
        (((st.chunks.filter (fun c => c.id != self.id)).filter
          (fun c => c.storage_node_id == self.storage_node_id)).map
          (fun c => (c.size : Int))).sum := by
    simp [Chunk.delete, hid]
  refine ⟨rfl, ?_, ?_, ?_, ?_, ?_⟩
  · rw [hnode]
    rfl
  · rw [hnode]
    exact le_max_left 0 _
  · rw [hnode]
    exact max_le hcap (sub_le_self _ hused)
  · rw [hnode]
    simp [update_storage_metrics]
  · rw [hnode]
    rfl

/-- A registered node and the two chunk rows it stores, used by the C5
witness. -/
def exNodeState : StorageState :=
  { nodes := [{ id := 1, name := "n1", capacity := 100, available := 84,
                is_active := true }],
    files := [exFile],
    chunks := [exUploadingChunk,
      { id := 2, file_id := 1, storage_node_id := 1, object_key := "k1",
        chunk_number := 1, size := 8, checksum := some "c1", is_primary := true,
        status := ChunkStatus.completed, stored_checksum := none,
        last_verified_at := none }],
    versions := [] }

/-- C5 witness: deleting chunk 1 leaves one 8-byte chunk on node 1, so
`available` becomes `100 - 8 = 92`. -/
theorem C5_witness :
    0 < exNodeState.nodes.length ∧
    (exNodeState.nodes.get ⟨0, by decide⟩).id = exUploadingChunk.storage_node_id ∧
    (0 : Int) ≤ (exNodeState.nodes.get ⟨0, by decide⟩).capacity ∧
    ((Chunk.delete exUploadingChunk exNodeState).nodes.get ⟨0, by decide⟩).available =
      max 0 ((exNodeState.nodes.get ⟨0, by decide⟩).capacity -
        (((exNodeState.chunks.filter (fun c => c.id != exUploadingChunk.id)).filter
          (fun c => c.storage_node_id == exUploadingChunk.storage_node_id)).map
          (fun c => (c.size : Int))).sum) := by
  refine ⟨by decide, by decide, by decide, ?_⟩
  exact (C5_delete_recompute exUploadingChunk exNodeState 0 (by decide) (by decide)
    (by decide) (by decide)).2.1

/-! ## C7: version numbering -/

/-- Version numbers of one file are in `[1, count]` and pairwise
distinct (hence gap-free). -/
def versionNumbersOK (st : StorageState) (fid : Nat) : Prop :=
  (∀ v ∈ versionsOf st fid, 1 ≤ v.version_number ∧
    v.version_number ≤ (versionsOf st fid).length) ∧
  (versionsOf st fid).Pairwise (fun v w => v.version_number ≠ w.version_number)

/-- C7: starting from a store whose version numbers for the file are
gap-free and distinct, `create_version` appends a version numbered
`count + 1` (so the n-th snapshot gets number n, the first gets 1), no
number is ever shared, and the property is preserved. -/
theorem C7_create_version_numbers (st : StorageState) (f : File)
    (user new_id : Nat) (notes : String) (hok : versionNumbersOK st f.id) :
    (create_version st f user new_id notes).1.version_number =
      (versionsOf st f.id).length + 1 ∧
    versionsOf (create_version st f user new_id notes).2 f.id =
      versionsOf st f.id ++ [(create_version st f user new_id notes).1] ∧
    versionNumbersOK (create_version st f user new_id notes).2 f.id := by
  have happ : versionsOf (create_version st f user new_id notes).2 f.id =
      versionsOf st f.id ++ [(create_version st f user new_id notes).1] := by
    simp [versionsOf, create_version, List.filter_append]
  refine ⟨rfl, happ, ?_, ?_⟩
  · intro v hv
    rw [happ] at hv
    rw [happ, List.length_append]
    rcases List.mem_append.1 hv with h | h
    · obtain ⟨hb1, hb2⟩ := hok.1 v h
      exact ⟨hb1, hb2.trans (Nat.le_add_right _ _)⟩
    · rcases List.mem_singleton.1 h with rfl
      exact ⟨Nat.le_add_left 1 _, by simp [create_version]⟩
  · rw [happ]
    refine List.pairwise_append.2 ⟨hok.2, List.pairwise_singleton _ _, ?_⟩
    intro a ha b hb
    rcases List.mem_singleton.1 hb with rfl
    have := (hok.1 a ha).2
    simp only [create_version]
    omega

/-- C7 witness: the store already holding version 1 of file 1 satisfies
the numbering property, and the next snapshot is numbered 2. -/
theorem C7_witness :
    versionNumbersOK exState 1 ∧
    (create_version exState exFile 1 8 "").1.version_number = 2 := by
  have hok : versionNumbersOK exState 1 := by
    constructor
    · intro v hv
      fin_cases hv
      decide
    · decide
  exact ⟨hok, (C7_create_version_numbers exState exFile 1 8 "" hok).1⟩

end DFS
